import Mathlib

/-
Verification of the NanoTDF Key Access Server core (src/src/main.rs).

Bytes are modelled as natural numbers, byte strings as lists of naturals.
The external cryptographic primitives (x25519, SHA-256, AES-256-GCM) come
from library crates, so they are abstracted as a parameter structure; the
dispatch, framing, state and validation logic is translated directly from
the source. The nanotdf module (binary header parser) is not part of the
source tree, so it is modelled from the specification.
-/

/-- ConnectionState (main.rs lines 31-43): per-connection state holding an
optional session shared secret. -/
structure ConnectionState where
  shared_secret : Option (List Nat)
deriving DecidableEq

/-- ConnectionState::new (main.rs line 37): fresh state with no secret. -/
def ConnectionState.new : ConnectionState :=
  { shared_secret := none }

/-- MessageType (main.rs lines 45-51): the four wire message tags. -/
inductive MessageType where
  | PublicKey
  | KasPublicKey
  | Rewrap
  | RewrappedKey
deriving DecidableEq

/-- Discriminant values of MessageType (main.rs lines 47-50). -/
def MessageType.toTag : MessageType → Nat
  | .PublicKey => 1
  | .KasPublicKey => 2
  | .Rewrap => 3
  | .RewrappedKey => 4

/-- MessageType::from_u8 (main.rs lines 53-63): fallible tag decoding,
unrecognized bytes map to none, never to a default variant. -/
def MessageType.from_u8 (value : Nat) : Option MessageType :=
  if value = 1 then some MessageType.PublicKey
  else if value = 2 then some MessageType.KasPublicKey
  else if value = 3 then some MessageType.Rewrap
  else if value = 4 then some MessageType.RewrappedKey
  else none

/-- Abstract interface to the external cryptography crates used by main.rs:
x25519_base gives the public key of a private scalar, x25519_dh is the
Diffie-Hellman agreement, sha256 the hash, and aes256gcm_encrypt maps
(key, nonce, plaintext) to ciphertext-with-appended-tag as the aes_gcm
Aead::encrypt API does. -/
structure Crypto where
  x25519_base : List Nat → List Nat
  x25519_dh : List Nat → List Nat → List Nat
  sha256 : List Nat → List Nat
  aes256gcm_encrypt : List Nat → List Nat → List Nat → List Nat

/-- Result of running one handler: either a normal return carrying an
optional response frame, or a panic (Option::unwrap/expect failure), which
kills the spawned connection task. -/
inductive HandlerOutcome where
  | ok : Option (List Nat) → HandlerOutcome
  | panicked : HandlerOutcome
deriving DecidableEq

/-- Modelled from the spec: parser error kinds of the NanoTDF header
parser (spec sections 4.4 and 7); the nanotdf module is not in the source
tree, only its caller is. -/
inductive ParseError where
  | TruncatedHeader
  | InvalidHeaderField
  | EphemeralKeyLengthMismatch
deriving DecidableEq

/-- Modelled from the spec: the policy block of a NanoTDF header (spec
section 3), carrying its binding tag only when the policy type requires
one. -/
structure Policy where
  policy_type : Nat
  body : List Nat
  binding : Option (List Nat)
deriving DecidableEq

/-- Policy::get_binding accessor (read-only, spec section 4.4). -/
def Policy.get_binding (p : Policy) : Option (List Nat) :=
  p.binding

/-- Modelled from the spec: the NanoTDF header value (spec section 3):
format/version marker, KAS locator descriptor, policy, per-object
ephemeral public key, symmetric cipher-suite descriptor. -/
structure Header where
  version : Nat
  kas_locator : List Nat
  policy : Policy
  ephemeral_key : List Nat
  cipher_suite : Nat
deriving DecidableEq

/-- Header::get_policy accessor (read-only, spec section 4.4). -/
def Header.get_policy (h : Header) : Policy :=
  h.policy

/-- Header::get_ephemeral_key accessor (read-only, spec section 4.4). -/
def Header.get_ephemeral_key (h : Header) : List Nat :=
  h.ephemeral_key

instance {ε α : Type} [DecidableEq ε] [DecidableEq α] : DecidableEq (Except ε α) := fun a b =>
  match a, b with
  | Except.ok x, Except.ok y =>
    if h : x = y then Decidable.isTrue (by rw [h])
    else Decidable.isFalse (by intro hc; cases hc; exact h rfl)
  | Except.error x, Except.error y =>
    if h : x = y then Decidable.isTrue (by rw [h])
    else Decidable.isFalse (by intro hc; cases hc; exact h rfl)
  | Except.ok _, Except.error _ => Decidable.isFalse (by intro hc; cases hc)
  | Except.error _, Except.ok _ => Decidable.isFalse (by intro hc; cases hc)

/-- Modelled from the spec: read one byte at the cursor, failing with
TruncatedHeader past the end (spec section 4.4). -/
def readByte (input : List Nat) : Except ParseError (Nat × List Nat) :=
  match input with
  | [] => Except.error ParseError.TruncatedHeader
  | b :: rest => Except.ok (b, rest)

/-- Modelled from the spec: read an explicitly-sized field of n bytes,
failing with TruncatedHeader when fewer remain (spec section 4.4). -/
def readBytes (n : Nat) (input : List Nat) : Except ParseError (List Nat × List Nat) :=
  if n ≤ input.length then Except.ok (input.take n, input.drop n)
  else Except.error ParseError.TruncatedHeader

/-- Modelled from the spec: BinaryParser::parse_header (spec section 4.4).
Advances a cursor over the fields in order: format/version marker
(validated against the known value, InvalidHeaderField on mismatch), KAS
locator (one length byte then that many bytes), policy block (type byte,
length-prefixed body, and an 8-byte binding tag exactly when the policy
type requires one), ephemeral public key (one length byte which must be
one of the accepted encodings 32 or 33, EphemeralKeyLengthMismatch
otherwise, then that many bytes), cipher-suite tag. Never returns a
partial structure. -/
def parse_header (input : List Nat) : Except ParseError Header := do
  let (version, r1) ← readByte input
  if version ≠ 1 then
    throw ParseError.InvalidHeaderField
  let (kasLen, r2) ← readByte r1
  let (kas_locator, r3) ← readBytes kasLen r2
  let (ptype, r4) ← readByte r3
  if 2 ≤ ptype then
    throw ParseError.InvalidHeaderField
  let (bodyLen, r5) ← readByte r4
  let (body, r6) ← readBytes bodyLen r5
  let bindingStep ←
    if ptype = 1 then do
      let (b, r7) ← readBytes 8 r6
      pure ((some b : Option (List Nat)), r7)
    else
      pure ((none : Option (List Nat)), r6)
  let (ekLen, r8) ← readByte bindingStep.2
  if ekLen ≠ 32 ∧ ekLen ≠ 33 then
    throw ParseError.EphemeralKeyLengthMismatch
  let (ephemeral_key, r9) ← readBytes ekLen r8
  let (cipher_suite, _r10) ← readByte r9
  pure { version := version
         kas_locator := kas_locator
         policy := { policy_type := ptype, body := body, binding := bindingStep.1 }
         ephemeral_key := ephemeral_key
         cipher_suite := cipher_suite }

/-- Lines 203-210 of main.rs: the ephemeral-key field of the header is
accepted only when its length is exactly 33; then the leading byte is
stripped and the remaining 32 bytes are taken as the raw public key
(the try_from on bytes 1.. cannot fail at length 33). -/
def tdfEphemeralPublicKey (bytes : List Nat) : Option (List Nat) :=
  if bytes.length ≠ 33 then none
  else some (bytes.drop 1)

/-- The stubbed DEK of main.rs line 228: dek_shared_secret = vec![0; 32],
a constant independent of the header and of the KAS private key. -/
def dek_shared_secret : List Nat :=
  List.replicate 32 0

/-- Lines 233-243 of main.rs: unwrap the session secret (panics when it is
none), build the AES-256-GCM cipher from it (Key::from_slice panics unless
the secret is 32 bytes), encrypt the stubbed DEK under the fresh nonce,
and frame the result as tag 0x04 followed directly by the encrypt output;
the nonce itself is not placed in the response. -/
def rewrapEncrypt (c : Crypto) (nonce : List Nat) (st : ConnectionState) : HandlerOutcome :=
  match st.shared_secret with
  | none => HandlerOutcome.panicked
  | some session_shared_secret =>
    if session_shared_secret.length = 32 then
      HandlerOutcome.ok (some
        (MessageType.RewrappedKey.toTag ::
          c.aes256gcm_encrypt session_shared_secret nonce dek_shared_secret))
    else HandlerOutcome.panicked

/-- handle_rewrap (main.rs lines 171-244). The session secret is looked up
but a missing one does not return early. The payload is parsed as a
NanoTDF header (parse failure: no response). The policy binding is
unwrapped for logging (line 200): a header whose policy has no binding
panics here. Then the ephemeral-key length gate of lines 205-209 runs
(any length other than 33: no response), and finally rewrapEncrypt. -/
def handle_rewrap (c : Crypto) (nonce : List Nat) (st : ConnectionState)
    (payload : List Nat) : HandlerOutcome :=
  match parse_header payload with
  | Except.error _e => HandlerOutcome.ok none
  | Except.ok header =>
    match header.get_policy.get_binding with
    | none => HandlerOutcome.panicked
    | some _b =>
      match tdfEphemeralPublicKey header.get_ephemeral_key with
      | none => HandlerOutcome.ok none
      | some _tdf_ephemeral_public_key => rewrapEncrypt c nonce st

/-- handle_public_key (main.rs lines 246-299): when the connection already
has a shared secret, return no response and leave the state alone; when
the payload is not exactly 32 bytes, return no response; otherwise run the
ephemeral x25519 agreement with a fresh server private key, store the
SHA-256 of the shared secret into the state, and respond with tag 0x01
followed by the server ephemeral public key. -/
def handle_public_key (c : Crypto) (server_private_key : List Nat)
    (st : ConnectionState) (payload : List Nat) : HandlerOutcome × ConnectionState :=
  if st.shared_secret.isSome then (HandlerOutcome.ok none, st)
  else if payload.length ≠ 32 then (HandlerOutcome.ok none, st)
  else
    let client_public_key := payload
    let server_public_key := c.x25519_base server_private_key
    let shared_secret := c.x25519_dh server_private_key client_public_key
    let hashed_secret := c.sha256 shared_secret
    (HandlerOutcome.ok (some (MessageType.PublicKey.toTag :: server_public_key)),
     { shared_secret := some hashed_secret })

/-- handle_kas_public_key (main.rs lines 301-314): when the process-wide
KAS public key bytes are loaded, respond with tag 0x02 followed by those
bytes; otherwise no response. The request payload is only logged. -/
def handle_kas_public_key (kas_public_key_der : Option (List Nat))
    (_payload : List Nat) : HandlerOutcome :=
  match kas_public_key_der with
  | some kas_public_key_bytes =>
      HandlerOutcome.ok (some (MessageType.KasPublicKey.toTag :: kas_public_key_bytes))
  | none => HandlerOutcome.ok none

/-- handle_binary_message (main.rs lines 148-169): an empty frame is
rejected with no response; byte 0 is decoded with MessageType::from_u8;
an unrecognized tag gives no response; otherwise the matching handler
receives the bytes after byte 0. A client-sent RewrappedKey frame is
recognized but ignored. -/
def handle_binary_message (c : Crypto) (kas : Option (List Nat))
    (server_private_key nonce : List Nat) (st : ConnectionState)
    (data : List Nat) : HandlerOutcome × ConnectionState :=
  match data with
  | [] => (HandlerOutcome.ok none, st)
  | t :: payload =>
    match MessageType.from_u8 t with
    | some MessageType.PublicKey => handle_public_key c server_private_key st payload
    | some MessageType.KasPublicKey => (handle_kas_public_key kas payload, st)
    | some MessageType.Rewrap => (handle_rewrap c nonce st payload, st)
    | some MessageType.RewrappedKey => (HandlerOutcome.ok none, st)
    | none => (HandlerOutcome.ok none, st)

/-- Processing a sequence of inbound frames on one connection, threading
the per-connection state (main.rs lines 126-145); each step carries its
frame together with the randomness that step draws (server ephemeral
private key and AES-GCM nonce). -/
def processAll (c : Crypto) (kas : Option (List Nat)) :
    ConnectionState → List (List Nat × List Nat × List Nat) → ConnectionState
  | st, [] => st
  | st, step :: rest =>
      processAll c kas (handle_binary_message c kas step.2.1 step.2.2 st step.1).2 rest

/-- A concrete, length-faithful instantiation of the crypto interface used
to evaluate the handlers on concrete inputs: public keys, agreements and
digests are 32 bytes, and encryption appends a 16-byte tag. -/
def testCrypto : Crypto where
  x25519_base := fun k => (k ++ List.replicate 32 7).take 32
  x25519_dh := fun k p => (k ++ p ++ List.replicate 32 3).take 32
  sha256 := fun m => (m ++ List.replicate 32 5).take 32
  aes256gcm_encrypt := fun _k _n pt => pt ++ List.replicate 16 170

/-- A concrete 12-byte nonce draw. -/
def testNonce : List Nat :=
  [1, 2, 3, 4, 5, 6, 7, 8, 9, 10, 11, 12]

/-- A concrete 32-byte server ephemeral private key draw. -/
def testPriv : List Nat :=
  List.replicate 32 1

/-- A connection state whose 32-byte session key is set. -/
def stSet : ConnectionState :=
  { shared_secret := some (List.replicate 32 0) }

/-- A connection state with no session key. -/
def stUnset : ConnectionState :=
  ConnectionState.new

/-- A well-formed wire header whose policy carries a binding and whose
ephemeral-key field is the 33-byte encoding. -/
def payload33 : List Nat :=
  [1, 0, 1, 0] ++ List.replicate 8 9 ++ [33] ++ (4 :: List.replicate 32 5) ++ [0]

/-- A well-formed wire header whose policy carries a binding and whose
ephemeral-key field is the raw 32-byte encoding. -/
def payload32 : List Nat :=
  [1, 0, 1, 0] ++ List.replicate 8 9 ++ [32] ++ List.replicate 32 5 ++ [0]

/-- A well-formed wire header whose policy type requires no binding. -/
def payloadNB : List Nat :=
  [1, 0, 0, 0] ++ [33] ++ (4 :: List.replicate 32 5) ++ [0]

/-- The parsed form of payload33. -/
def header33 : Header :=
  { version := 1
    kas_locator := []
    policy := { policy_type := 1, body := [], binding := some (List.replicate 8 9) }
    ephemeral_key := 4 :: List.replicate 32 5
    cipher_suite := 0 }

/-- The parsed form of payload32. -/
def header32 : Header :=
  { version := 1
    kas_locator := []
    policy := { policy_type := 1, body := [], binding := some (List.replicate 8 9) }
    ephemeral_key := List.replicate 32 5
    cipher_suite := 0 }

/-- The parsed form of payloadNB: its policy has no binding. -/
def headerNB : Header :=
  { version := 1
    kas_locator := []
    policy := { policy_type := 0, body := [], binding := none }
    ephemeral_key := 4 :: List.replicate 32 5
    cipher_suite := 0 }

/-- Claim C1: the spec states the rewrap response frame is tag 0x04
followed by nonce(12) then ciphertext then tag(16), with the nonce at the
front so the session key suffices to decrypt. The code instead frames tag
0x04 followed directly by the aes_gcm encrypt output (ciphertext plus
16-byte tag); the freshly drawn nonce is discarded. At the concrete input
below the response payload neither starts with the nonce bytes nor is
long enough to contain a 12-byte nonce in front of a 48-byte encrypt
output. -/
theorem C1_response_omits_nonce :
    handle_rewrap testCrypto testNonce stSet payload33 =
      HandlerOutcome.ok (some
        (4 :: (List.replicate 32 0 ++ List.replicate 16 170))) ∧
    (List.replicate 32 0 ++ List.replicate 16 170).take 12 ≠ testNonce ∧
    (4 :: (List.replicate 32 0 ++ List.replicate 16 170)).length ≠ 1 + 12 + 32 + 16 := by
  decide

/-- Claim C2: the spec states a rewrap on a connection with no session key
yields no response and never terminates the connection-processing task,
regardless of the payload. In the code the missing secret is only logged
at lines 178-184; for a payload that parses into a header with a binding
and a 33-byte ephemeral-key field, execution reaches line 233 and panics
on Option::unwrap of the absent secret, killing the spawned task. -/
theorem C2_no_session_key_panics :
    ConnectionState.new.shared_secret = none ∧
    handle_rewrap testCrypto testNonce ConnectionState.new payload33 =
      HandlerOutcome.panicked := by
  decide

/-- Claim C8: a KasPublicKey request answers with tag 0x02 followed by the
stored KAS public key bytes when the process-wide key material is loaded,
ignores the request payload entirely, and yields no response when the
material is absent. -/
theorem C8_kas_public_key (kas : Option (List Nat)) (payload : List Nat) :
    (∀ k, kas = some k →
      handle_kas_public_key kas payload = HandlerOutcome.ok (some (2 :: k))) ∧
    (kas = none → handle_kas_public_key kas payload = HandlerOutcome.ok none) ∧
    (∀ payload2, handle_kas_public_key kas payload = handle_kas_public_key kas payload2) := by
  refine ⟨?_, ?_, ?_⟩
  · intro k hk
    subst hk
    rfl
  · intro hk
    subst hk
    rfl
  · intro payload2
    cases kas <;> rfl

/-- Witness for C8 at a concrete loaded key and payload. -/
theorem C8_kas_public_key_witness :
    handle_kas_public_key (some [2, 3]) [7] = HandlerOutcome.ok (some (2 :: [2, 3])) :=
  (C8_kas_public_key (some [2, 3]) [7]).1 [2, 3] rfl

/-- Claim C9: tag byte 0x04 decodes to the recognized RewrappedKey variant
yet the dispatcher returns no response and leaves the connection state
unchanged, for every payload and state. -/
theorem C9_rewrapped_key_ignored (c : Crypto) (kas : Option (List Nat))
    (priv nonce : List Nat) (st : ConnectionState) (payload : List Nat) :
    MessageType.from_u8 4 = some MessageType.RewrappedKey ∧
    handle_binary_message c kas priv nonce st (4 :: payload) =
      (HandlerOutcome.ok none, st) := by
  exact ⟨rfl, rfl⟩

/-- Claim C10: a rewrap payload that parses into a header whose policy
carries no binding makes the handler panic on the unwrap at main.rs line
200, before any other check, for every crypto, nonce and state. -/
theorem C10_missing_binding_panics (c : Crypto) (nonce : List Nat)
    (st : ConnectionState) (payload : List Nat) (h : Header)
    (hp : parse_header payload = Except.ok h)
    (hb : h.policy.binding = none) :
    handle_rewrap c nonce st payload = HandlerOutcome.panicked := by
  simp only [handle_rewrap, hp, Header.get_policy, Policy.get_binding, hb]

/-- Witness for C10 at the concrete binding-free payload. -/
theorem C10_missing_binding_panics_witness :
    handle_rewrap testCrypto testNonce stSet payloadNB = HandlerOutcome.panicked :=
  C10_missing_binding_panics testCrypto testNonce stSet payloadNB headerNB (by decide) rfl

/-- Claim C3: a PublicKey message on a connection with no session key and
an exactly 32-byte payload runs the ephemeral agreement, stores the
SHA-256 of the shared secret, and answers with tag 0x01 followed by the
server ephemeral public key (32 bytes when the curve library is
length-correct); any other payload length yields no response and the
session key stays unset. -/
theorem C3_handshake_behavior (c : Crypto) (priv : List Nat)
    (st : ConnectionState) (payload : List Nat)
    (hunset : st.shared_secret = none) :
    (payload.length = 32 →
      handle_public_key c priv st payload =
        (HandlerOutcome.ok (some (1 :: c.x25519_base priv)),
         { shared_secret := some (c.sha256 (c.x25519_dh priv payload)) })) ∧
    ((c.x25519_base priv).length = 32 → (1 :: c.x25519_base priv).length = 33) ∧
    (payload.length ≠ 32 →
      handle_public_key c priv st payload = (HandlerOutcome.ok none, st) ∧
      st.shared_secret = none) := by
  refine ⟨?_, ?_, ?_⟩
  · intro h32
    simp [handle_public_key, hunset, h32, MessageType.toTag]
  · intro hpub
    simp [hpub]
  · intro hne
    refine ⟨?_, hunset⟩
    simp [handle_public_key, hunset, hne]

/-- Witness for C3 at a fresh state, a concrete 32-byte client key and the
concrete crypto instantiation. -/
theorem C3_handshake_behavior_witness :
    handle_public_key testCrypto testPriv ConnectionState.new (List.replicate 32 2) =
      (HandlerOutcome.ok (some (1 :: testCrypto.x25519_base testPriv)),
       { shared_secret :=
           some (testCrypto.sha256 (testCrypto.x25519_dh testPriv (List.replicate 32 2))) }) ∧
    (1 :: testCrypto.x25519_base testPriv).length = 33 :=
  ⟨(C3_handshake_behavior testCrypto testPriv ConnectionState.new
      (List.replicate 32 2) rfl).1 (by decide),
   (C3_handshake_behavior testCrypto testPriv ConnectionState.new
      (List.replicate 32 2) rfl).2.1 (by decide)⟩

/-- Helper: a single dispatched message never changes a session key that is
already set, whatever its tag, payload and randomness. -/
theorem handle_binary_message_preserves_key (c : Crypto) (kas : Option (List Nat))
    (priv nonce : List Nat) (st : ConnectionState) (s : List Nat)
    (h : st.shared_secret = some s) (data : List Nat) :
    ((handle_binary_message c kas priv nonce st data).2).shared_secret = some s := by
  match data with
  | [] => simpa [handle_binary_message] using h
  | t :: payload =>
    cases hmt : MessageType.from_u8 t with
    | none => simpa [handle_binary_message, hmt] using h
    | some mt =>
      cases mt with
      | PublicKey =>
        simp only [handle_binary_message, hmt]
        simp [handle_public_key, h]
      | KasPublicKey => simpa [handle_binary_message, hmt] using h
      | Rewrap => simpa [handle_binary_message, hmt] using h
      | RewrappedKey => simpa [handle_binary_message, hmt] using h

/-- Helper: processing any sequence of frames keeps a set session key,
byte for byte. -/
theorem processAll_preserves_key (c : Crypto) (kas : Option (List Nat))
    (s : List Nat) :
    ∀ (msgs : List (List Nat × List Nat × List Nat)) (st : ConnectionState),
      st.shared_secret = some s → (processAll c kas st msgs).shared_secret = some s := by
  intro msgs
  induction msgs with
  | nil => intro st h; simpa [processAll] using h
  | cons step rest ih =>
    intro st h
    simp only [processAll]
    exact ih _ (handle_binary_message_preserves_key c kas step.2.1 step.2.2 st s h step.1)

/-- Claim C4: on a connection whose session key is set, every further
PublicKey message yields no response and leaves the state untouched, and
over any sequence of dispatched messages the stored key never changes;
hence the key transitions unset to set at most once per connection. -/
theorem C4_session_key_set_once (c : Crypto) (kas : Option (List Nat))
    (priv : List Nat) (st : ConnectionState) (s : List Nat)
    (h : st.shared_secret = some s) :
    (∀ payload, handle_public_key c priv st payload = (HandlerOutcome.ok none, st)) ∧
    (∀ msgs : List (List Nat × List Nat × List Nat),
      (processAll c kas st msgs).shared_secret = some s) := by
  constructor
  · intro payload
    simp [handle_public_key, h]
  · intro msgs
    exact processAll_preserves_key c kas s msgs st h

/-- Witness for C4: a duplicate handshake on a keyed state is silently
dropped, and a handshake-then-rewrap sequence leaves the key intact. -/
theorem C4_session_key_set_once_witness :
    handle_public_key testCrypto testPriv stSet (List.replicate 32 2) =
      (HandlerOutcome.ok none, stSet) ∧
    (processAll testCrypto (some [2, 3]) stSet
        [(1 :: List.replicate 32 2, testPriv, testNonce),
         (3 :: payload33, testPriv, testNonce)]).shared_secret =
      some (List.replicate 32 0) :=
  ⟨(C4_session_key_set_once testCrypto (some [2, 3]) testPriv stSet
      (List.replicate 32 0) rfl).1 (List.replicate 32 2),
   (C4_session_key_set_once testCrypto (some [2, 3]) testPriv stSet
      (List.replicate 32 0) rfl).2
      [(1 :: List.replicate 32 2, testPriv, testNonce),
       (3 :: payload33, testPriv, testNonce)]⟩

/-- Claim C5 counterexample: payload32 parses into a header whose
ephemeral-key field has the raw 32-byte length, one of the accepted
encodings according to the claim, and whose policy binding is present;
with the session key set the handler nevertheless produces no response,
because main.rs line 205 accepts only length 33. -/
theorem C5_counterexample :
    parse_header payload32 = Except.ok header32 ∧
    header32.ephemeral_key.length = 32 ∧
    header32.policy.binding = some (List.replicate 8 9) ∧
    stSet.shared_secret = some (List.replicate 32 0) ∧
    handle_rewrap testCrypto testNonce stSet payload32 = HandlerOutcome.ok none := by
  decide

/-- Claim C5 as amended: for a parsed header whose policy binding is
present, the ephemeral-key field is accepted exactly when it is 33 bytes
long (one leading format-indicator byte plus the raw key); then precisely
the leading byte is stripped, leaving 32 raw key bytes; every other
length, including the raw 32-byte encoding, yields no response. -/
theorem C5_ephemeral_key_length_gate (payload : List Nat) (h : Header)
    (b : List Nat) (hp : parse_header payload = Except.ok h)
    (hb : h.policy.binding = some b) :
    (h.ephemeral_key.length ≠ 33 →
      ∀ (c : Crypto) (nonce : List Nat) (st : ConnectionState),
        handle_rewrap c nonce st payload = HandlerOutcome.ok none) ∧
    (h.ephemeral_key.length = 33 →
      tdfEphemeralPublicKey h.ephemeral_key = some (h.ephemeral_key.drop 1) ∧
      (h.ephemeral_key.drop 1).length = 32) := by
  constructor
  · intro hne c nonce st
    simp only [handle_rewrap, hp, Header.get_policy, Policy.get_binding, hb,
      Header.get_ephemeral_key, tdfEphemeralPublicKey, hne]
    simp [hne]
  · intro he
    constructor
    · simp [tdfEphemeralPublicKey, he]
    · simp [List.length_drop, he]

/-- Witness for the amended C5 at the concrete 32-byte-key payload. -/
theorem C5_ephemeral_key_length_gate_witness :
    handle_rewrap testCrypto testNonce stUnset payload32 = HandlerOutcome.ok none :=
  (C5_ephemeral_key_length_gate payload32 header32 (List.replicate 8 9)
    (by decide) rfl).1 (by decide) testCrypto testNonce stUnset

/-- Claim C6: whenever a rewrap reaches the encryption step (header parsed,
binding present, 33-byte ephemeral-key field, 32-byte session key set),
the plaintext encrypted under the session key is the constant 32-byte
all-zero stubbed DEK, whatever the header's ephemeral key holds; no KAS
private key enters the computation and no access-control check can deny:
a response is always produced. -/
theorem C6_constant_dek (c : Crypto) (nonce : List Nat) (st : ConnectionState)
    (payload : List Nat) (h : Header) (b s : List Nat)
    (hp : parse_header payload = Except.ok h)
    (hb : h.policy.binding = some b)
    (he : h.ephemeral_key.length = 33)
    (hs : st.shared_secret = some s) (hl : s.length = 32) :
    handle_rewrap c nonce st payload =
      HandlerOutcome.ok (some (4 :: c.aes256gcm_encrypt s nonce (List.replicate 32 0))) := by
  simp only [handle_rewrap, hp, Header.get_policy, Policy.get_binding, hb,
    Header.get_ephemeral_key, tdfEphemeralPublicKey, he]
  simp only [ne_eq, not_true_eq_false, if_false, ite_false]
  simp [rewrapEncrypt, hs, hl, dek_shared_secret, MessageType.toTag]

/-- Witness for C6 at the concrete well-formed payload and keyed state. -/
theorem C6_constant_dek_witness :
    handle_rewrap testCrypto testNonce stSet payload33 =
      HandlerOutcome.ok (some
        (4 :: testCrypto.aes256gcm_encrypt (List.replicate 32 0) testNonce
          (List.replicate 32 0))) :=
  C6_constant_dek testCrypto testNonce stSet payload33 header33
    (List.replicate 8 9) (List.replicate 32 0) (by decide) rfl (by decide) rfl (by decide)

/-- Claim C7: the dispatcher drops an empty frame with no response; drops a
frame whose tag byte is unrecognized with no response and unchanged state;
and otherwise hands exactly the bytes after byte 0 to the handler matching
the tag. -/
theorem C7_dispatch (c : Crypto) (kas : Option (List Nat))
    (priv nonce : List Nat) (st : ConnectionState) (data : List Nat) :
    (data = [] →
      handle_binary_message c kas priv nonce st data = (HandlerOutcome.ok none, st)) ∧
    (∀ t, data.head? = some t → MessageType.from_u8 t = none →
      handle_binary_message c kas priv nonce st data = (HandlerOutcome.ok none, st)) ∧
    (∀ t, data.head? = some t →
      (MessageType.from_u8 t = some MessageType.PublicKey →
        handle_binary_message c kas priv nonce st data =
          handle_public_key c priv st (data.drop 1)) ∧
      (MessageType.from_u8 t = some MessageType.KasPublicKey →
        handle_binary_message c kas priv nonce st data =
          (handle_kas_public_key kas (data.drop 1), st)) ∧
      (MessageType.from_u8 t = some MessageType.Rewrap →
        handle_binary_message c kas priv nonce st data =
          (handle_rewrap c nonce st (data.drop 1), st)) ∧
      (MessageType.from_u8 t = some MessageType.RewrappedKey →
        handle_binary_message c kas priv nonce st data =
          (HandlerOutcome.ok none, st))) := by
  match data with
  | [] =>
    refine ⟨fun _ => rfl, ?_, ?_⟩
    · intro t ht
      exact absurd ht (by simp)
    · intro t ht
      exact absurd ht (by simp)
  | t0 :: payload =>
    refine ⟨?_, ?_, ?_⟩
    · intro hc
      exact absurd hc (List.cons_ne_nil t0 payload)
    · intro t ht hmt
      obtain rfl : t0 = t := by simpa using ht
      simp [handle_binary_message, hmt]
    · intro t ht
      obtain rfl : t0 = t := by simpa using ht
      refine ⟨?_, ?_, ?_, ?_⟩ <;> intro hmt <;> simp [handle_binary_message, hmt]

/-- Witness for C7: a KasPublicKey frame routes its tail to the KAS
handler. -/
theorem C7_dispatch_witness :
    handle_binary_message testCrypto (some [2, 3]) testPriv testNonce stUnset [2, 99] =
      (handle_kas_public_key (some [2, 3]) [99], stUnset) :=
  ((C7_dispatch testCrypto (some [2, 3]) testPriv testNonce stUnset [2, 99]).2.2
    2 rfl).2.1 rfl
